import Mathlib

/-!
Verification of the KMS screenshot backend (`src/backend/kms.rs`,
`src/backend/pixel_format.rs`) of the mcp-screenshot repository.

The Rust code is shallowly embedded: pure pixel conversion becomes pure Lean
functions on `List UInt8`; the DRM device is an oracle (`Card`) of ioctl
results; each capture operation returns its result together with an explicit
trace of the resource-handling side effects it performed (PRIME export, mmap,
GEM handle close), so that resource-discipline claims can be stated.
An out-of-bounds slice index, which panics in Rust, is modelled as `none` /
`panicked`.
-/

namespace Mcp

-- ## Pixel formats (`drm_fourcc::DrmFourcc`)

inductive DrmFourcc where
  | Xrgb8888
  | Argb8888
  | Xbgr8888
  | Abgr8888
  | Rgb565
  | other (tag : String)
  deriving DecidableEq

/-- Debug formatting of a fourcc, as used by `format!("{other:?}")`. -/
def fourccDebug : DrmFourcc → String
  | .Xrgb8888 => "Xrgb8888"
  | .Argb8888 => "Argb8888"
  | .Xbgr8888 => "Xbgr8888"
  | .Abgr8888 => "Abgr8888"
  | .Rgb565 => "Rgb565"
  | .other tag => tag

-- ## Pixel decoder (`src/backend/pixel_format.rs`)

/-- One pixel of `convert_xrgb8888`'s inner loop body: reads
`row[off+2], row[off+1], row[off]` and pushes `[R, G, B, 0xFF]`.
`none` models the Rust index panic. -/
def xrgbPixel (row : List UInt8) (x : Nat) : Option (List UInt8) :=
  match row[x * 4 + 2]?, row[x * 4 + 1]?, row[x * 4]? with
  | some r, some g, some b => some [r, g, b, 255]
  | _, _, _ => none

/-- One pixel of `convert_argb8888`: pushes `[R, G, B, A]` from `[B,G,R,A]`. -/
def argbPixel (row : List UInt8) (x : Nat) : Option (List UInt8) :=
  match row[x * 4 + 2]?, row[x * 4 + 1]?, row[x * 4]?, row[x * 4 + 3]? with
  | some r, some g, some b, some a => some [r, g, b, a]
  | _, _, _, _ => none

/-- One pixel of `convert_xbgr8888`: pushes `[R, G, B, 0xFF]` from `[R,G,B,X]`. -/
def xbgrPixel (row : List UInt8) (x : Nat) : Option (List UInt8) :=
  match row[x * 4]?, row[x * 4 + 1]?, row[x * 4 + 2]? with
  | some r, some g, some b => some [r, g, b, 255]
  | _, _, _ => none

/-- One pixel of `convert_abgr8888`: pushes `[R, G, B, A]` from `[R,G,B,A]`. -/
def abgrPixel (row : List UInt8) (x : Nat) : Option (List UInt8) :=
  match row[x * 4]?, row[x * 4 + 1]?, row[x * 4 + 2]?, row[x * 4 + 3]? with
  | some r, some g, some b, some a => some [r, g, b, a]
  | _, _, _, _ => none

/-- One pixel of `convert_rgb565`. The Rust source computes in `u16`/`u8`;
all intermediate values stay below the respective overflow bounds
(`hi << 8 ≤ 0xFF00`, channel values ≤ 0x3F, replicated bytes ≤ 0xFF),
so plain `Nat` arithmetic is exact. -/
def rgb565Pixel (row : List UInt8) (x : Nat) : Option (List UInt8) :=
  match row[x * 2]?, row[x * 2 + 1]? with
  | some lo, some hi =>
    let pixel : Nat := lo.toNat ||| (hi.toNat <<< 8)
    let r : Nat := (pixel >>> 11) &&& 0x1F
    let g : Nat := (pixel >>> 5) &&& 0x3F
    let b : Nat := pixel &&& 0x1F
    some [UInt8.ofNat ((r <<< 3) ||| (r >>> 2)),
          UInt8.ofNat ((g <<< 2) ||| (g >>> 4)),
          UInt8.ofNat ((b <<< 3) ||| (b >>> 2)),
          255]
  | _, _ => none

/-- The `for`-loop-with-`Vec::push` skeleton shared by the five converters:
concatenate `f 0, f 1, …, f (n-1)` in order, failing if any step fails. -/
def pushLoop (f : Nat → Option (List UInt8)) : Nat → Option (List UInt8)
  | 0 => some []
  | n + 1 =>
    match pushLoop f n, f n with
    | some acc, some chunk => some (acc ++ chunk)
    | _, _ => none

/-- The row offset `(y * pitch) as usize` is a `u32` multiplication in the
source (`y` and `pitch` are `u32`, the product is reduced modulo 2^32 before
the widening cast): release builds wrap exactly as modelled by the
`% 4294967296` below, debug builds panic on the overflow. The per-pixel
offsets `x * 4` / `x * 2` are computed in `usize` and are exact. -/
def convert_xrgb8888 (src : List UInt8) (width height pitch : Nat) :
    Option (List UInt8) :=
  pushLoop (fun y =>
      pushLoop (fun x => xrgbPixel (src.drop (y * pitch % 4294967296)) x) width)
    height

def convert_argb8888 (src : List UInt8) (width height pitch : Nat) :
    Option (List UInt8) :=
  pushLoop (fun y =>
      pushLoop (fun x => argbPixel (src.drop (y * pitch % 4294967296)) x) width)
    height

def convert_xbgr8888 (src : List UInt8) (width height pitch : Nat) :
    Option (List UInt8) :=
  pushLoop (fun y =>
      pushLoop (fun x => xbgrPixel (src.drop (y * pitch % 4294967296)) x) width)
    height

def convert_abgr8888 (src : List UInt8) (width height pitch : Nat) :
    Option (List UInt8) :=
  pushLoop (fun y =>
      pushLoop (fun x => abgrPixel (src.drop (y * pitch % 4294967296)) x) width)
    height

def convert_rgb565 (src : List UInt8) (width height pitch : Nat) :
    Option (List UInt8) :=
  pushLoop (fun y =>
      pushLoop (fun x => rgb565Pixel (src.drop (y * pitch % 4294967296)) x) width)
    height

/-- Result of `convert_to_rgba`: Rust's `Result<Vec<u8>, String>`, plus
`panicked` for an out-of-bounds index panic. -/
inductive ConvResult where
  | ok (data : List UInt8)
  | err (msg : String)
  | panicked
  deriving DecidableEq

def liftConv : Option (List UInt8) → ConvResult
  | some data => .ok data
  | none => .panicked

def convert_to_rgba (src : List UInt8) (width height pitch : Nat)
    (format : DrmFourcc) : ConvResult :=
  match format with
  | .Xrgb8888 => liftConv (convert_xrgb8888 src width height pitch)
  | .Argb8888 => liftConv (convert_argb8888 src width height pitch)
  | .Xbgr8888 => liftConv (convert_xbgr8888 src width height pitch)
  | .Abgr8888 => liftConv (convert_abgr8888 src width height pitch)
  | .Rgb565 => liftConv (convert_rgb565 src width height pitch)
  | .other tag => .err ("Unsupported pixel format: " ++ tag)

/-- Bytes per pixel of each supported encoding (`none` for unsupported ones). -/
def fourccBytesPerPixel : DrmFourcc → Option Nat
  | .Xrgb8888 => some 4
  | .Argb8888 => some 4
  | .Xbgr8888 => some 4
  | .Abgr8888 => some 4
  | .Rgb565 => some 2
  | .other _ => none

/-- Whether the encoding ignores any source alpha (output alpha forced to 255). -/
def fourccOpaque : DrmFourcc → Bool
  | .Xrgb8888 => true
  | .Xbgr8888 => true
  | .Rgb565 => true
  | _ => false

-- ## KMS backend (`src/backend/kms.rs`)

inductive DrmModifier where
  | Linear
  | vendor (tag : String)
  deriving DecidableEq

/-- Debug formatting of a modifier, as used by `format!("{modifier:?}")`. -/
def modifierDebug : DrmModifier → String
  | .Linear => "Linear"
  | .vendor tag => tag

/-- `rmcp::ErrorData` as constructed by this backend: either
`McpError::invalid_params(msg, None)` or `McpError::internal_error(msg, None)`. -/
inductive McpErr where
  | invalidParams (msg : String)
  | internalError (msg : String)
  deriving DecidableEq

structure Image where
  width : Nat
  height : Nat
  data : List UInt8
  deriving DecidableEq

/-- `image::RgbaImage::from_raw`: succeeds iff the container holds at least
`width * height * 4` bytes. -/
def RgbaImage.from_raw (width height : Nat) (data : List UInt8) : Option Image :=
  if width * height * 4 ≤ data.length then some ⟨width, height, data⟩ else none

/-- Outcome of a fallible backend operation; `panicked` models a Rust panic. -/
inductive KResult (α : Type) where
  | ok (a : α)
  | err (e : McpErr)
  | panicked
  deriving DecidableEq

/-- Resource-handling side effects of a capture, in program order. -/
inductive Event where
  | getFb2Call
  | getFb1Call
  | primeExport (gem : Nat)
  | mmapCall (size : Nat)
  | munmapCall
  | closeBuffer (gem : Nat)
  deriving DecidableEq

/-- Steps that hand the backing buffer to the Buffer Mapper. -/
def Event.isMapperStep : Event → Bool
  | .primeExport _ => true
  | .mmapCall _ => true
  | _ => false

/-- Framebuffer-query ioctl attempts. -/
def Event.isQueryCall : Event → Bool
  | .getFb2Call => true
  | .getFb1Call => true
  | _ => false

/-- Result of `get_planar_framebuffer` (GET_FB2): modifier, first plane's
buffer handle and pitch, and the explicit pixel format. -/
structure Fb2Info where
  modifier : Option DrmModifier
  buffer0 : Option Nat
  pitch0 : Nat
  pixel_format : DrmFourcc

/-- Result of `get_framebuffer` (legacy GET_FB): single buffer handle,
pitch, bits-per-pixel and depth. -/
structure Fb1Info where
  buffer : Option Nat
  pitch : Nat
  bpp : Nat
  depth : Nat

inductive ConnState where
  | Connected
  | Disconnected
  | Unknown
  deriving DecidableEq

structure ConnInfo where
  state : ConnState
  current_encoder : Option Nat
  name : String

structure EncInfo where
  crtc : Option Nat

structure Mode where
  w : Nat
  h : Nat

structure CrtcInfo where
  mode : Option Mode
  framebuffer : Option Nat

/-- Oracle for one open DRM device: the result each ioctl would return.
Handles (connector, encoder, CRTC, framebuffer, GEM, PRIME fd) are `Nat`. -/
structure Card where
  resource_connectors : Except String (List Nat)
  get_connector : Nat → Except String ConnInfo
  get_encoder : Nat → Except String EncInfo
  get_crtc : Nat → Except String CrtcInfo
  get_planar_framebuffer : Nat → Except String Fb2Info
  get_framebuffer : Nat → Except String Fb1Info
  buffer_to_prime_fd : Nat → Except String Nat
  mmap_read : Nat → Nat → Except String (List UInt8)

structure ActiveOutput where
  connector_name : String
  crtc_handle : Nat
  width : Nat
  height : Nat
  fb_handle : Nat
  deriving DecidableEq

structure KmsBackend where
  card : Card
  outputs : List ActiveOutput

/-- `KmsBackend::mmap_gem_buffer`: PRIME-export the GEM handle, mmap
`height * pitch` bytes, copy them out, munmap. The trace records export,
map and unmap; the GEM handle itself is closed by the caller. -/
def mmap_gem_buffer (card : Card) (gem_handle height pitch : Nat) :
    Except McpErr (List UInt8) × List Event :=
  match card.buffer_to_prime_fd gem_handle with
  | .error e =>
    (.error (.internalError ("PRIME export failed: " ++ e)),
     [.primeExport gem_handle])
  | .ok prime_fd =>
    let size := height * pitch
    match card.mmap_read prime_fd size with
    | .error e =>
      (.error (.internalError ("mmap failed: " ++ e)),
       [.primeExport gem_handle, .mmapCall size])
    | .ok data =>
      (.ok data, [.primeExport gem_handle, .mmapCall size, .munmapCall])

/-- Body of `capture_fb2` after the modifier check: take `buffers()[0]`,
map it, decode, close the GEM handle, assemble the image. -/
def capture_fb2_body (card : Card) (info : Fb2Info) (width height : Nat) :
    KResult Image × List Event :=
  match info.buffer0 with
  | none => (.err (.internalError "No buffer handle in framebuffer"), [])
  | some gem_handle =>
    match mmap_gem_buffer card gem_handle height info.pitch0 with
    | (.error e, tr) => (.err e, tr)
    | (.ok raw, tr) =>
      match convert_to_rgba raw width height info.pitch0 info.pixel_format with
      | .err e => (.err (.internalError e), tr)
      | .panicked => (.panicked, tr)
      | .ok rgba_data =>
        let tr2 := tr ++ [.closeBuffer gem_handle]
        match RgbaImage.from_raw width height rgba_data with
        | some img => (.ok img, tr2)
        | none =>
          (.err (.internalError "Failed to create image from pixel data"), tr2)

/-- `KmsBackend::capture_fb2`: GET_FB2, reject non-linear modifiers, then
map + decode the first plane's buffer. -/
def capture_fb2 (card : Card) (fb_handle width height : Nat) :
    KResult Image × List Event :=
  let r : KResult Image × List Event :=
    match card.get_planar_framebuffer fb_handle with
    | .error e => (.err (.internalError ("GET_FB2 failed: " ++ e)), [])
    | .ok info =>
      match info.modifier with
      | some m =>
        if m ≠ DrmModifier.Linear then
          (.err (.internalError
            ("Framebuffer has non-linear modifier (" ++ modifierDebug m ++
             "); tiled buffers cannot be read via mmap")), [])
        else capture_fb2_body card info width height
      | none => capture_fb2_body card info width height
  (r.1, Event.getFb2Call :: r.2)

/-- The `(bpp, depth)` → fourcc mapping inlined in `capture_fb1`. -/
def fb1_format (bpp depth : Nat) : Option DrmFourcc :=
  if bpp = 32 ∧ depth = 24 then some .Xrgb8888
  else if bpp = 32 ∧ depth = 32 then some .Argb8888
  else if bpp = 16 ∧ depth = 16 then some .Rgb565
  else none

/-- `KmsBackend::capture_fb1`: legacy GET_FB, map `(bpp, depth)` to a fourcc
(closing the GEM handle before an unsupported-format error), then map +
decode. -/
def capture_fb1 (card : Card) (fb_handle width height : Nat) :
    KResult Image × List Event :=
  let r : KResult Image × List Event :=
    match card.get_framebuffer fb_handle with
    | .error e => (.err (.internalError ("GET_FB failed: " ++ e)), [])
    | .ok info =>
      match info.buffer with
      | none =>
        (.err (.internalError
          ("No buffer handle from GET_FB. CAP_SYS_ADMIN is required " ++
           "(try: sudo setcap cap_sys_admin+ep <binary>)")), [])
      | some gem_handle =>
        match fb1_format info.bpp info.depth with
        | none =>
          (.err (.internalError
            ("Unsupported framebuffer format: " ++ toString info.bpp ++
             "bpp depth=" ++ toString info.depth)),
           [.closeBuffer gem_handle])
        | some format =>
          match mmap_gem_buffer card gem_handle height info.pitch with
          | (.error e, tr) => (.err e, tr)
          | (.ok raw, tr) =>
            match convert_to_rgba raw width height info.pitch format with
            | .err e => (.err (.internalError e), tr ++ [.closeBuffer gem_handle])
            | .panicked => (.panicked, tr)
            | .ok rgba_data =>
              let tr2 := tr ++ [.closeBuffer gem_handle]
              match RgbaImage.from_raw width height rgba_data with
              | some img => (.ok img, tr2)
              | none =>
                (.err (.internalError "Failed to create image from pixel data"),
                 tr2)
  (r.1, Event.getFb1Call :: r.2)

/-- `KmsBackend::capture_fb`: refresh the CRTC's framebuffer, try GET_FB2,
fall back to GET_FB on any error. -/
def capture_fb (card : Card) (output : ActiveOutput) :
    KResult Image × List Event :=
  match card.get_crtc output.crtc_handle with
  | .error e => (.err (.internalError ("Failed to get CRTC: " ++ e)), [])
  | .ok crtc_info =>
    let fb_handle := crtc_info.framebuffer.getD output.fb_handle
    match capture_fb2 card fb_handle output.width output.height with
    | (.ok img, tr) => (.ok img, tr)
    | (.panicked, tr) => (.panicked, tr)
    | (.err _, tr) =>
      let r1 := capture_fb1 card fb_handle output.width output.height
      (r1.1, tr ++ r1.2)

/-- `KmsBackend::capture_monitor`: an explicit index is looked up (out of
range → `invalid_params`); an omitted index selects the first output
(none → `internal_error`). -/
def capture_monitor (b : KmsBackend) (monitor_id : Option Nat) :
    KResult Image × List Event :=
  match monitor_id with
  | some id =>
    match b.outputs[id]? with
    | some output => capture_fb b.card output
    | none =>
      (.err (.invalidParams ("Monitor index " ++ toString id ++ " out of range")),
       [])
  | none =>
    match b.outputs.head? with
    | some output => capture_fb b.card output
    | none => (.err (.internalError "No active outputs"), [])

/-- One iteration of the `probe_outputs` connector loop. `.error` models a
`?`-propagated query failure; `.ok none` models a `continue`. -/
def probe_connector (card : Card) (conn_h : Nat) :
    Except String (Option ActiveOutput) :=
  match card.get_connector conn_h with
  | .error e => .error e
  | .ok conn =>
    if conn.state ≠ ConnState.Connected then .ok none
    else
      match conn.current_encoder with
      | none => .ok none
      | some enc_h =>
        match card.get_encoder enc_h with
        | .error e => .error e
        | .ok enc =>
          match enc.crtc with
          | none => .ok none
          | some crtc_h =>
            match card.get_crtc crtc_h with
            | .error e => .error e
            | .ok crtc_info =>
              match crtc_info.mode with
              | none => .ok none
              | some mode =>
                match crtc_info.framebuffer with
                | none => .ok none
                | some fb_h =>
                  .ok (some ⟨conn.name, crtc_h, mode.w, mode.h, fb_h⟩)

/-- The `probe_outputs` loop over the device's connector handles. -/
def probe_go (card : Card) : List Nat → Except String (List ActiveOutput)
  | [] => .ok []
  | conn_h :: rest =>
    match probe_connector card conn_h with
    | .error e => .error e
    | .ok none => probe_go card rest
    | .ok (some out) =>
      match probe_go card rest with
      | .error e => .error e
      | .ok outs => .ok (out :: outs)

/-- `KmsBackend::probe_outputs`. -/
def probe_outputs (card : Card) : Except String (List ActiveOutput) :=
  match card.resource_connectors with
  | .error e => .error e
  | .ok conns => probe_go card conns

/-- Modelled from the spec (§4.1), for comparison with `probe_outputs`:
the spec says a failing per-connector query step is non-fatal and only that
connector is skipped, so here a query failure is treated exactly like a
missing chain element. -/
def probe_outputs_specSkip (card : Card) (conns : List Nat) : List ActiveOutput :=
  conns.filterMap (fun conn_h => ((probe_connector card conn_h).toOption).join)

/-- `KmsBackend::open` over an abstract `/dev/dri/card*` listing: `none`
entries are nodes that fail to open; the first card whose probe yields a
non-empty output list becomes the backend. -/
def open_go : List (Option Card) → Except String KmsBackend
  | [] =>
    .error ("No DRI card with active outputs found. Ensure /dev/dri/card* " ++
      "exists and the process has CAP_SYS_ADMIN " ++
      "(try: sudo setcap cap_sys_admin+ep <binary>)")
  | none :: rest => open_go rest
  | some card :: rest =>
    match probe_outputs card with
    | .ok outs => if outs.isEmpty then open_go rest else .ok ⟨card, outs⟩
    | .error _ => open_go rest

-- ## Proof-layer descriptions of the decoded output

/-- Concatenation of `d 0, d 1, …, d (n-1)`: the total (panic-free) value of
`pushLoop` once every step is known to succeed. -/
def flatTo (d : Nat → List UInt8) : Nat → List UInt8
  | 0 => []
  | n + 1 => flatTo d n ++ d n

/-- The bytes `convert_xrgb8888` pushes for pixel `x` of the row starting at
byte `off`, as reads of the whole source buffer. -/
def xrgbPixelD (src : List UInt8) (off x : Nat) : List UInt8 :=
  [src.getD (off + (x * 4 + 2)) 0, src.getD (off + (x * 4 + 1)) 0,
   src.getD (off + x * 4) 0, 255]

def argbPixelD (src : List UInt8) (off x : Nat) : List UInt8 :=
  [src.getD (off + (x * 4 + 2)) 0, src.getD (off + (x * 4 + 1)) 0,
   src.getD (off + x * 4) 0, src.getD (off + (x * 4 + 3)) 0]

def xbgrPixelD (src : List UInt8) (off x : Nat) : List UInt8 :=
  [src.getD (off + x * 4) 0, src.getD (off + (x * 4 + 1)) 0,
   src.getD (off + (x * 4 + 2)) 0, 255]

def abgrPixelD (src : List UInt8) (off x : Nat) : List UInt8 :=
  [src.getD (off + x * 4) 0, src.getD (off + (x * 4 + 1)) 0,
   src.getD (off + (x * 4 + 2)) 0, src.getD (off + (x * 4 + 3)) 0]

/-- The little-endian 16-bit word `convert_rgb565` assembles for pixel `x` of
the row starting at byte `off`. -/
def rgb565Word (src : List UInt8) (off x : Nat) : Nat :=
  (src.getD (off + x * 2) 0).toNat |||
    ((src.getD (off + (x * 2 + 1)) 0).toNat <<< 8)

def rgb565PixelD (src : List UInt8) (off x : Nat) : List UInt8 :=
  [UInt8.ofNat ((((rgb565Word src off x >>> 11) &&& 0x1F) <<< 3) |||
      (((rgb565Word src off x >>> 11) &&& 0x1F) >>> 2)),
   UInt8.ofNat ((((rgb565Word src off x >>> 5) &&& 0x3F) <<< 2) |||
      (((rgb565Word src off x >>> 5) &&& 0x3F) >>> 4)),
   UInt8.ofNat (((rgb565Word src off x &&& 0x1F) <<< 3) |||
      ((rgb565Word src off x &&& 0x1F) >>> 2)),
   255]

/-- Success of every per-connector query step of the probe for connector
`conn_h` (get_connector, and get_encoder / get_crtc where the chain reaches
them). -/
def connQueriesOk (card : Card) (conn_h : Nat) : Prop :=
  ∃ conn, card.get_connector conn_h = .ok conn ∧
    ∀ enc_h, conn.state = ConnState.Connected → conn.current_encoder = some enc_h →
      ∃ enc, card.get_encoder enc_h = .ok enc ∧
        ∀ crtc_h, enc.crtc = some crtc_h →
          ∃ crtc_info, card.get_crtc crtc_h = .ok crtc_info

/-- One of the three per-connector query ioctls fails with error `e` at the
point the probe chain reaches it: get_connector itself, or get_encoder on a
connected connector's bound encoder, or get_crtc on that encoder's CRTC. -/
def connQueryFails (card : Card) (conn_h : Nat) (e : String) : Prop :=
  card.get_connector conn_h = .error e ∨
  (∃ conn enc_h, card.get_connector conn_h = .ok conn ∧
    conn.state = ConnState.Connected ∧ conn.current_encoder = some enc_h ∧
    card.get_encoder enc_h = .error e) ∨
  (∃ conn enc_h enc crtc_h, card.get_connector conn_h = .ok conn ∧
    conn.state = ConnState.Connected ∧ conn.current_encoder = some enc_h ∧
    card.get_encoder enc_h = .ok enc ∧ enc.crtc = some crtc_h ∧
    card.get_crtc crtc_h = .error e)

-- ## Concrete device oracles used as witnesses / counterexamples

/-- A device whose GET_FB2 succeeds with a linear modifier but an unsupported
pixel format, so that the decode step fails after the buffer was mapped. -/
def cardDecodeFail : Card where
  resource_connectors := .ok [1]
  get_connector := fun _ => .ok ⟨ConnState.Connected, some 5, "HDMI-A-1"⟩
  get_encoder := fun _ => .ok ⟨some 6⟩
  get_crtc := fun _ => .ok ⟨some ⟨2, 1⟩, some 77⟩
  get_planar_framebuffer := fun _ =>
    .ok ⟨some DrmModifier.Linear, some 7, 8, DrmFourcc.other "Yuyv"⟩
  get_framebuffer := fun _ => .error "GET_FB ioctl failed"
  buffer_to_prime_fd := fun _ => .ok 10
  mmap_read := fun _ size => .ok (List.replicate size 0)

/-- A device whose GET_FB2 reports a vendor-tiled modifier while the legacy
GET_FB succeeds with a supported `(32, 24)` format. -/
def cardTiled : Card where
  resource_connectors := .ok [1]
  get_connector := fun _ => .ok ⟨ConnState.Connected, some 5, "HDMI-A-1"⟩
  get_encoder := fun _ => .ok ⟨some 6⟩
  get_crtc := fun _ => .ok ⟨some ⟨1, 1⟩, some 77⟩
  get_planar_framebuffer := fun _ =>
    .ok ⟨some (DrmModifier.vendor "I915FormatModXTiled"), some 7, 4,
         DrmFourcc.Xrgb8888⟩
  get_framebuffer := fun _ => .ok ⟨some 7, 4, 32, 24⟩
  buffer_to_prime_fd := fun _ => .ok 10
  mmap_read := fun _ size => .ok (List.replicate size 0)

/-- A device where the first connector's GET_CONNECTOR query fails while the
second connector has a complete active chain. -/
def cardConnFail : Card where
  resource_connectors := .ok [1, 2]
  get_connector := fun conn_h =>
    if conn_h = 1 then .error "GET_CONNECTOR ioctl failed"
    else .ok ⟨ConnState.Connected, some 5, "HDMI-A-2"⟩
  get_encoder := fun _ => .ok ⟨some 6⟩
  get_crtc := fun _ => .ok ⟨some ⟨1920, 1080⟩, some 42⟩
  get_planar_framebuffer := fun _ => .error "unused"
  get_framebuffer := fun _ => .error "unused"
  buffer_to_prime_fd := fun _ => .error "unused"
  mmap_read := fun _ _ => .error "unused"

/-- A fully healthy single-output device. -/
def cardHealthy : Card where
  resource_connectors := .ok [1]
  get_connector := fun _ => .ok ⟨ConnState.Connected, some 5, "HDMI-A-1"⟩
  get_encoder := fun _ => .ok ⟨some 6⟩
  get_crtc := fun _ => .ok ⟨some ⟨1, 1⟩, some 42⟩
  get_planar_framebuffer := fun _ =>
    .ok ⟨some DrmModifier.Linear, some 7, 4, DrmFourcc.Xrgb8888⟩
  get_framebuffer := fun _ => .ok ⟨some 7, 4, 32, 24⟩
  buffer_to_prime_fd := fun _ => .ok 10
  mmap_read := fun _ size => .ok (List.replicate size 0)

/-- A device whose legacy GET_FB reports an unmapped `(bpp, depth)` pair. -/
def cardOddFormat : Card where
  resource_connectors := .ok [1]
  get_connector := fun _ => .ok ⟨ConnState.Connected, some 5, "HDMI-A-1"⟩
  get_encoder := fun _ => .ok ⟨some 6⟩
  get_crtc := fun _ => .ok ⟨some ⟨1, 1⟩, some 77⟩
  get_planar_framebuffer := fun _ => .error "GET_FB2 ioctl failed"
  get_framebuffer := fun _ => .ok ⟨some 7, 3, 24, 24⟩
  buffer_to_prime_fd := fun _ => .ok 10
  mmap_read := fun _ size => .ok (List.replicate size 0)

/-- A pitch of 2^31 + 2 bytes: the u32 row offset `2 * cexPitch` overflows
to 4, so the third scanline is read from near the start of the buffer. -/
def cexPitch : Nat := 2147483650

/-- An all-zero source buffer of three scanlines at `cexPitch`. -/
def cexSrcZero : List UInt8 := List.replicate (3 * cexPitch) 0

/-- The same buffer with byte 7 — alignment padding of row 0, but the
wrapped read target of row 2's alpha byte — set to 200. -/
def cexSrcMarked : List UInt8 := cexSrcZero.set 7 200

/-- The single active output probed from `cardHealthy`. -/
def outHealthy : ActiveOutput := ⟨"HDMI-A-1", 6, 1, 1, 42⟩

/-- An active output whose CRTC re-query on `cardTiled` resolves fb 77. -/
def outTiled : ActiveOutput := ⟨"HDMI-A-1", 3, 1, 1, 77⟩

-- ## Helper lemmas about the loop skeleton

theorem pushLoop_eq_flatTo (f : Nat → Option (List UInt8)) (d : Nat → List UInt8)
    (n : Nat) (h : ∀ i, i < n → f i = some (d i)) :
    pushLoop f n = some (flatTo d n) := by
  induction n with
  | zero => rfl
  | succ n ih =>
    have h1 := ih (fun i hi => h i (Nat.lt_succ_of_lt hi))
    have h2 := h n (Nat.lt_succ_self n)
    simp [pushLoop, flatTo, h1, h2]

theorem flatTo_length (d : Nat → List UInt8) (k n : Nat)
    (h : ∀ i, i < n → (d i).length = k) : (flatTo d n).length = k * n := by
  induction n with
  | zero => simp [flatTo]
  | succ n ih =>
    have h1 := ih (fun i hi => h i (Nat.lt_succ_of_lt hi))
    have h2 := h n (Nat.lt_succ_self n)
    simp [flatTo, h1, h2, Nat.mul_succ]

theorem flatTo_getElem? (d : Nat → List UInt8) (k n : Nat)
    (h : ∀ i, i < n → (d i).length = k) (i j : Nat) (hi : i < n) (hj : j < k) :
    (flatTo d n)[k * i + j]? = (d i)[j]? := by
  induction n with
  | zero => omega
  | succ n ih =>
    have hlen : (flatTo d n).length = k * n :=
      flatTo_length d k n (fun i hi => h i (Nat.lt_succ_of_lt hi))
    rcases Nat.lt_succ_iff_lt_or_eq.1 hi with hlt | rfl
    · have hb : k * i + j < (flatTo d n).length := by
        rw [hlen]
        have h1 : k * i + j < k * (i + 1) := by
          rw [Nat.mul_succ]
          omega
        have h2 : k * (i + 1) ≤ k * n := Nat.mul_le_mul_left k hlt
        omega
      show (flatTo d n ++ d n)[k * i + j]? = (d i)[j]?
      rw [List.getElem?_append_left hb]
      exact ih (fun i hi => h i (Nat.lt_succ_of_lt hi)) hlt
    · show (flatTo d i ++ d i)[k * i + j]? = (d i)[j]?
      rw [List.getElem?_append_right (by rw [hlen]; omega)]
      congr 1
      rw [hlen]
      omega

theorem flatTo_congr (d1 d2 : Nat → List UInt8) (n : Nat)
    (h : ∀ i, i < n → d1 i = d2 i) : flatTo d1 n = flatTo d2 n := by
  induction n with
  | zero => rfl
  | succ n ih =>
    simp [flatTo, ih (fun i hi => h i (Nat.lt_succ_of_lt hi)),
      h n (Nat.lt_succ_self n)]

theorem getElem?_eq_some_getD (l : List UInt8) (i : Nat) (h : i < l.length) :
    l[i]? = some (l.getD i 0) := by
  rw [List.getElem?_eq_getElem h]
  simp [List.getD, List.getElem?_eq_getElem h]

-- ## Per-format characterizations of the decoder

theorem xrgbPixel_eq (src : List UInt8) (off x : Nat)
    (h : off + (x * 4 + 3) < src.length) :
    xrgbPixel (src.drop off) x = some (xrgbPixelD src off x) := by
  unfold xrgbPixel xrgbPixelD
  rw [List.getElem?_drop, List.getElem?_drop, List.getElem?_drop,
    getElem?_eq_some_getD src _ (by omega),
    getElem?_eq_some_getD src _ (by omega),
    getElem?_eq_some_getD src _ (by omega)]

theorem argbPixel_eq (src : List UInt8) (off x : Nat)
    (h : off + (x * 4 + 3) < src.length) :
    argbPixel (src.drop off) x = some (argbPixelD src off x) := by
  unfold argbPixel argbPixelD
  rw [List.getElem?_drop, List.getElem?_drop, List.getElem?_drop,
    List.getElem?_drop,
    getElem?_eq_some_getD src _ (by omega),
    getElem?_eq_some_getD src _ (by omega),
    getElem?_eq_some_getD src _ (by omega),
    getElem?_eq_some_getD src _ (by omega)]

theorem xbgrPixel_eq (src : List UInt8) (off x : Nat)
    (h : off + (x * 4 + 3) < src.length) :
    xbgrPixel (src.drop off) x = some (xbgrPixelD src off x) := by
  unfold xbgrPixel xbgrPixelD
  rw [List.getElem?_drop, List.getElem?_drop, List.getElem?_drop,
    getElem?_eq_some_getD src _ (by omega),
    getElem?_eq_some_getD src _ (by omega),
    getElem?_eq_some_getD src _ (by omega)]

theorem abgrPixel_eq (src : List UInt8) (off x : Nat)
    (h : off + (x * 4 + 3) < src.length) :
    abgrPixel (src.drop off) x = some (abgrPixelD src off x) := by
  unfold abgrPixel abgrPixelD
  rw [List.getElem?_drop, List.getElem?_drop, List.getElem?_drop,
    List.getElem?_drop,
    getElem?_eq_some_getD src _ (by omega),
    getElem?_eq_some_getD src _ (by omega),
    getElem?_eq_some_getD src _ (by omega),
    getElem?_eq_some_getD src _ (by omega)]

theorem rgb565Pixel_eq (src : List UInt8) (off x : Nat)
    (h : off + (x * 2 + 1) < src.length) :
    rgb565Pixel (src.drop off) x = some (rgb565PixelD src off x) := by
  unfold rgb565Pixel rgb565PixelD rgb565Word
  rw [List.getElem?_drop, List.getElem?_drop,
    getElem?_eq_some_getD src _ (by omega),
    getElem?_eq_some_getD src _ (by omega)]

theorem row_offset_collapse (h p : Nat) (hw : h * p < 4294967296) (y : Nat)
    (hy : y < h) : y * p % 4294967296 = y * p ∧ y * p + p ≤ h * p := by
  have h3 : y + 1 ≤ h := hy
  have h2 : y * p + p ≤ h * p := by
    calc y * p + p = (y + 1) * p := by ring
    _ ≤ h * p := Nat.mul_le_mul_right p h3
  exact ⟨Nat.mod_eq_of_lt (by omega), h2⟩

theorem convert_xrgb8888_eq (src : List UInt8) (w h p : Nat)
    (hp : 4 * w ≤ p) (hs : h * p ≤ src.length) (hw : h * p < 4294967296) :
    convert_xrgb8888 src w h p =
      some (flatTo (fun y => flatTo (fun x => xrgbPixelD src (y * p) x) w) h) := by
  unfold convert_xrgb8888
  apply pushLoop_eq_flatTo
  intro y hy
  obtain ⟨hmod, h2⟩ := row_offset_collapse h p hw y hy
  rw [hmod]
  apply pushLoop_eq_flatTo
  intro x hx
  apply xrgbPixel_eq
  have h1 : x * 4 + 3 < p := by omega
  omega

theorem convert_argb8888_eq_offsets (src : List UInt8) (w h p : Nat)
    (hrows : ∀ y, y < h → y * p % 4294967296 + 4 * w ≤ src.length) :
    convert_argb8888 src w h p =
      some (flatTo (fun y =>
        flatTo (fun x => argbPixelD src (y * p % 4294967296) x) w) h) := by
  unfold convert_argb8888
  apply pushLoop_eq_flatTo
  intro y hy
  apply pushLoop_eq_flatTo
  intro x hx
  apply argbPixel_eq
  have h1 := hrows y hy
  omega

theorem convert_argb8888_eq (src : List UInt8) (w h p : Nat)
    (hp : 4 * w ≤ p) (hs : h * p ≤ src.length) (hw : h * p < 4294967296) :
    convert_argb8888 src w h p =
      some (flatTo (fun y => flatTo (fun x => argbPixelD src (y * p) x) w) h) := by
  have hrows : ∀ y, y < h → y * p % 4294967296 + 4 * w ≤ src.length := by
    intro y hy
    obtain ⟨hmod, h2⟩ := row_offset_collapse h p hw y hy
    rw [hmod]
    omega
  rw [convert_argb8888_eq_offsets src w h p hrows]
  congr 1
  apply flatTo_congr
  intro y hy
  obtain ⟨hmod, -⟩ := row_offset_collapse h p hw y hy
  rw [hmod]

theorem convert_xbgr8888_eq (src : List UInt8) (w h p : Nat)
    (hp : 4 * w ≤ p) (hs : h * p ≤ src.length) (hw : h * p < 4294967296) :
    convert_xbgr8888 src w h p =
      some (flatTo (fun y => flatTo (fun x => xbgrPixelD src (y * p) x) w) h) := by
  unfold convert_xbgr8888
  apply pushLoop_eq_flatTo
  intro y hy
  obtain ⟨hmod, h2⟩ := row_offset_collapse h p hw y hy
  rw [hmod]
  apply pushLoop_eq_flatTo
  intro x hx
  apply xbgrPixel_eq
  have h1 : x * 4 + 3 < p := by omega
  omega

theorem convert_abgr8888_eq (src : List UInt8) (w h p : Nat)
    (hp : 4 * w ≤ p) (hs : h * p ≤ src.length) (hw : h * p < 4294967296) :
    convert_abgr8888 src w h p =
      some (flatTo (fun y => flatTo (fun x => abgrPixelD src (y * p) x) w) h) := by
  unfold convert_abgr8888
  apply pushLoop_eq_flatTo
  intro y hy
  obtain ⟨hmod, h2⟩ := row_offset_collapse h p hw y hy
  rw [hmod]
  apply pushLoop_eq_flatTo
  intro x hx
  apply abgrPixel_eq
  have h1 : x * 4 + 3 < p := by omega
  omega

theorem convert_rgb565_eq (src : List UInt8) (w h p : Nat)
    (hp : 2 * w ≤ p) (hs : h * p ≤ src.length) (hw : h * p < 4294967296) :
    convert_rgb565 src w h p =
      some (flatTo (fun y => flatTo (fun x => rgb565PixelD src (y * p) x) w) h) := by
  unfold convert_rgb565
  apply pushLoop_eq_flatTo
  intro y hy
  obtain ⟨hmod, h2⟩ := row_offset_collapse h p hw y hy
  rw [hmod]
  apply pushLoop_eq_flatTo
  intro x hx
  apply rgb565Pixel_eq
  have h1 : x * 2 + 1 < p := by omega
  omega

theorem flatflat_length (d : Nat → Nat → List UInt8) (w h : Nat)
    (hd : ∀ y x, y < h → x < w → (d y x).length = 4) :
    (flatTo (fun y => flatTo (d y) w) h).length = w * h * 4 := by
  rw [flatTo_length _ (4 * w) h
    (fun y hy => flatTo_length (d y) 4 w (fun x hx => hd y x hy hx))]
  ring

theorem flatflat_getElem? (d : Nat → Nat → List UInt8) (w h : Nat)
    (hd : ∀ y x, y < h → x < w → (d y x).length = 4)
    (y x j : Nat) (hy : y < h) (hx : x < w) (hj : j < 4) :
    (flatTo (fun y => flatTo (d y) w) h)[4 * (y * w + x) + j]? = (d y x)[j]? := by
  have houter : ∀ i, i < h → (flatTo (d i) w).length = 4 * w :=
    fun i hi => flatTo_length (d i) 4 w (fun x hx => hd i x hi hx)
  have hidx : 4 * (y * w + x) + j = 4 * w * y + (4 * x + j) := by ring
  rw [hidx, flatTo_getElem? _ (4 * w) h houter y (4 * x + j) hy (by omega),
    flatTo_getElem? (d y) 4 w (fun x hx => hd y x hy hx) x j hx hj]

theorem index_decompose (w h i : Nat) (hi : i < w * h) :
    ∃ y x, y < h ∧ x < w ∧ i = y * w + x := by
  rcases Nat.eq_zero_or_pos w with rfl | hw
  · exact absurd hi (by omega)
  · refine ⟨i / w, i % w, ?_, Nat.mod_lt i hw, ?_⟩
    · rw [Nat.div_lt_iff_lt_mul hw, Nat.mul_comm]
      exact hi
    · exact (Nat.div_add_mod i w).symm.trans (by ring)

/-- Claim C5 (amended): for every supported pixel encoding, every width,
height and pitch with pitch ≥ width × bytes-per-pixel and
height × pitch < 2^32 (the per-row offset y × pitch is a 32-bit
multiplication in the source and wraps beyond that — see the
counterexample), and every source buffer of at least height × pitch bytes,
the decoder returns exactly width × height × 4 output bytes; for the
alpha-less encodings every 4th output byte is 255 regardless of the ignored
source byte, and for ARGB8888/ABGR8888 the output alpha byte equals the
corresponding source alpha byte unchanged. -/
theorem C5_decoder_output_shape (format : DrmFourcc) (bpp : Nat)
    (hf : fourccBytesPerPixel format = some bpp)
    (src : List UInt8) (w h p : Nat) (hp : bpp * w ≤ p)
    (hs : h * p ≤ src.length) (hw : h * p < 4294967296) :
    ∃ L, convert_to_rgba src w h p format = .ok L ∧
      L.length = w * h * 4 ∧
      (fourccOpaque format = true → ∀ i, i < w * h → L[4 * i + 3]? = some 255) ∧
      (fourccOpaque format = false → ∀ y x, y < h → x < w →
        L[4 * (y * w + x) + 3]? = src[y * p + (x * 4 + 3)]?) := by
  cases format with
  | Xrgb8888 =>
    have hbpp : bpp = 4 := by
      simpa [fourccBytesPerPixel] using hf.symm
    subst hbpp
    refine ⟨flatTo (fun y => flatTo (fun x => xrgbPixelD src (y * p) x) w) h,
      ?_, ?_, ?_, ?_⟩
    · show liftConv (convert_xrgb8888 src w h p) = _
      rw [convert_xrgb8888_eq src w h p hp hs hw]
      rfl
    · exact flatflat_length (fun y x => xrgbPixelD src (y * p) x) w h
        (fun _ _ _ _ => rfl)
    · intro _ i hi
      obtain ⟨y, x, hy, hx, rfl⟩ := index_decompose w h i hi
      rw [flatflat_getElem? (fun y x => xrgbPixelD src (y * p) x) w h
        (fun _ _ _ _ => rfl) y x 3 hy hx (by omega)]
      rfl
    · intro hop
      simp [fourccOpaque] at hop
  | Argb8888 =>
    have hbpp : bpp = 4 := by
      simpa [fourccBytesPerPixel] using hf.symm
    subst hbpp
    refine ⟨flatTo (fun y => flatTo (fun x => argbPixelD src (y * p) x) w) h,
      ?_, ?_, ?_, ?_⟩
    · show liftConv (convert_argb8888 src w h p) = _
      rw [convert_argb8888_eq src w h p hp hs hw]
      rfl
    · exact flatflat_length (fun y x => argbPixelD src (y * p) x) w h
        (fun _ _ _ _ => rfl)
    · intro hop
      simp [fourccOpaque] at hop
    · intro _ y x hy hx
      rw [flatflat_getElem? (fun y x => argbPixelD src (y * p) x) w h
        (fun _ _ _ _ => rfl) y x 3 hy hx (by omega)]
      have hb : y * p + (x * 4 + 3) < src.length := by
        have h1 : x * 4 + 3 < p := by omega
        have h2 : y * p + p ≤ h * p := by
          have h3 : y + 1 ≤ h := hy
          calc y * p + p = (y + 1) * p := by ring
          _ ≤ h * p := Nat.mul_le_mul_right p h3
        omega
      rw [getElem?_eq_some_getD src _ hb]
      rfl
  | Xbgr8888 =>
    have hbpp : bpp = 4 := by
      simpa [fourccBytesPerPixel] using hf.symm
    subst hbpp
    refine ⟨flatTo (fun y => flatTo (fun x => xbgrPixelD src (y * p) x) w) h,
      ?_, ?_, ?_, ?_⟩
    · show liftConv (convert_xbgr8888 src w h p) = _
      rw [convert_xbgr8888_eq src w h p hp hs hw]
      rfl
    · exact flatflat_length (fun y x => xbgrPixelD src (y * p) x) w h
        (fun _ _ _ _ => rfl)
    · intro _ i hi
      obtain ⟨y, x, hy, hx, rfl⟩ := index_decompose w h i hi
      rw [flatflat_getElem? (fun y x => xbgrPixelD src (y * p) x) w h
        (fun _ _ _ _ => rfl) y x 3 hy hx (by omega)]
      rfl
    · intro hop
      simp [fourccOpaque] at hop
  | Abgr8888 =>
    have hbpp : bpp = 4 := by
      simpa [fourccBytesPerPixel] using hf.symm
    subst hbpp
    refine ⟨flatTo (fun y => flatTo (fun x => abgrPixelD src (y * p) x) w) h,
      ?_, ?_, ?_, ?_⟩
    · show liftConv (convert_abgr8888 src w h p) = _
      rw [convert_abgr8888_eq src w h p hp hs hw]
      rfl
    · exact flatflat_length (fun y x => abgrPixelD src (y * p) x) w h
        (fun _ _ _ _ => rfl)
    · intro hop
      simp [fourccOpaque] at hop
    · intro _ y x hy hx
      rw [flatflat_getElem? (fun y x => abgrPixelD src (y * p) x) w h
        (fun _ _ _ _ => rfl) y x 3 hy hx (by omega)]
      have hb : y * p + (x * 4 + 3) < src.length := by
        have h1 : x * 4 + 3 < p := by omega
        have h2 : y * p + p ≤ h * p := by
          have h3 : y + 1 ≤ h := hy
          calc y * p + p = (y + 1) * p := by ring
          _ ≤ h * p := Nat.mul_le_mul_right p h3
        omega
      rw [getElem?_eq_some_getD src _ hb]
      rfl
  | Rgb565 =>
    have hbpp : bpp = 2 := by
      simpa [fourccBytesPerPixel] using hf.symm
    subst hbpp
    refine ⟨flatTo (fun y => flatTo (fun x => rgb565PixelD src (y * p) x) w) h,
      ?_, ?_, ?_, ?_⟩
    · show liftConv (convert_rgb565 src w h p) = _
      rw [convert_rgb565_eq src w h p hp hs hw]
      rfl
    · exact flatflat_length (fun y x => rgb565PixelD src (y * p) x) w h
        (fun _ _ _ _ => rfl)
    · intro _ i hi
      obtain ⟨y, x, hy, hx, rfl⟩ := index_decompose w h i hi
      rw [flatflat_getElem? (fun y x => rgb565PixelD src (y * p) x) w h
        (fun _ _ _ _ => rfl) y x 3 hy hx (by omega)]
      rfl
    · intro hop
      simp [fourccOpaque] at hop
  | other tag =>
    simp [fourccBytesPerPixel] at hf

/-- Witness for C5 at a concrete opaque input: a 1×1 XRGB8888 buffer. -/
theorem C5_decoder_output_shape_witness :
    ∃ L, convert_to_rgba [1, 2, 3, 4] 1 1 4 DrmFourcc.Xrgb8888 = .ok L ∧
      L.length = 1 * 1 * 4 ∧
      (fourccOpaque DrmFourcc.Xrgb8888 = true →
        ∀ i, i < 1 * 1 → L[4 * i + 3]? = some 255) ∧
      (fourccOpaque DrmFourcc.Xrgb8888 = false → ∀ y x, y < 1 → x < 1 →
        L[4 * (y * 1 + x) + 3]? = [1, 2, 3, 4][y * 4 + (x * 4 + 3)]?) :=
  C5_decoder_output_shape DrmFourcc.Xrgb8888 4 rfl [1, 2, 3, 4] 1 1 4
    (by decide) (by decide) (by decide)

theorem rgb565_extract_channels (r g b : Nat) (hr : r < 32) (hg : g < 64)
    (hb : b < 32) :
    (((((r <<< 11) ||| (g <<< 5) ||| b) >>> 11) &&& 0x1F) = r) ∧
    (((((r <<< 11) ||| (g <<< 5) ||| b) >>> 5) &&& 0x3F) = g) ∧
    ((((r <<< 11) ||| (g <<< 5) ||| b) &&& 0x1F) = b) := by
  have hb5 : b < 2 ^ 5 := lt_of_lt_of_eq hb (by norm_num)
  have h5 : (g <<< 5) ||| b = 2 ^ 5 * g + b := by
    rw [Nat.shiftLeft_eq, Nat.mul_comm g (2 ^ 5)]
    exact (Nat.mul_add_lt_is_or hb5 g).symm
  have e1 : (2 : Nat) ^ 5 = 32 := by norm_num
  have e2 : (2 : Nat) ^ 11 = 2048 := by norm_num
  have e3 : (2 : Nat) ^ 6 = 64 := by norm_num
  have hgb : 2 ^ 5 * g + b < 2 ^ 11 := by
    rw [e1, e2]
    omega
  have hword : (r <<< 11) ||| (g <<< 5) ||| b = 2 ^ 11 * r + (2 ^ 5 * g + b) := by
    rw [Nat.or_assoc, h5, Nat.shiftLeft_eq, Nat.mul_comm r (2 ^ 11)]
    exact (Nat.mul_add_lt_is_or hgb r).symm
  have h31 : (0x1F : Nat) = 2 ^ 5 - 1 := by norm_num
  have h63 : (0x3F : Nat) = 2 ^ 6 - 1 := by norm_num
  refine ⟨?_, ?_, ?_⟩
  · rw [hword, Nat.shiftRight_eq_div_pow, h31, Nat.and_pow_two_sub_one_eq_mod,
      e1, e2]
    omega
  · rw [hword, Nat.shiftRight_eq_div_pow, h63, Nat.and_pow_two_sub_one_eq_mod,
      e1, e2, e3]
    omega
  · rw [hword, h31, Nat.and_pow_two_sub_one_eq_mod, e1, e2]
    omega

/-- Claim C6: for every 16-bit RGB565 input word (assembled little-endian
from two source bytes and carrying channels `r`, `g`, `b`), the decoder
expands each channel by replicating its high bits into the low bits exactly:
a 5-bit value `v` decodes to `(v<<3)|(v>>2)` and the 6-bit green value
decodes to `(g<<2)|(g>>4)`; in particular an all-ones channel decodes to 255
and a zero channel to 0. -/
theorem C6_rgb565_bit_replication (r g b : Nat) (hr : r < 32) (hg : g < 64)
    (hb : b < 32) (lo hi : UInt8)
    (hword : lo.toNat ||| (hi.toNat <<< 8) = (r <<< 11) ||| (g <<< 5) ||| b) :
    convert_rgb565 [lo, hi] 1 1 2 =
      some [UInt8.ofNat ((r <<< 3) ||| (r >>> 2)),
            UInt8.ofNat ((g <<< 2) ||| (g >>> 4)),
            UInt8.ofNat ((b <<< 3) ||| (b >>> 2)), 255] ∧
    (r = 31 → UInt8.ofNat ((r <<< 3) ||| (r >>> 2)) = 255) ∧
    (r = 0 → UInt8.ofNat ((r <<< 3) ||| (r >>> 2)) = 0) := by
  obtain ⟨h1, h2, h3⟩ := rgb565_extract_channels r g b hr hg hb
  refine ⟨?_, ?_, ?_⟩
  · have hconv : convert_rgb565 [lo, hi] 1 1 2 =
        some [UInt8.ofNat (((((lo.toNat ||| (hi.toNat <<< 8)) >>> 11) &&& 0x1F) <<< 3) |||
                ((((lo.toNat ||| (hi.toNat <<< 8)) >>> 11) &&& 0x1F) >>> 2)),
              UInt8.ofNat (((((lo.toNat ||| (hi.toNat <<< 8)) >>> 5) &&& 0x3F) <<< 2) |||
                ((((lo.toNat ||| (hi.toNat <<< 8)) >>> 5) &&& 0x3F) >>> 4)),
              UInt8.ofNat ((((lo.toNat ||| (hi.toNat <<< 8)) &&& 0x1F) <<< 3) |||
                (((lo.toNat ||| (hi.toNat <<< 8)) &&& 0x1F) >>> 2)),
              255] := rfl
    rw [hconv, hword, h1, h2, h3]
  · intro hr31
    subst hr31
    decide
  · intro hr0
    subst hr0
    decide

/-- Witness for C6 at the concrete word with channels r=21, g=42, b=10
(bytes lo=0x4A, hi=0xAD). -/
theorem C6_rgb565_bit_replication_witness :
    convert_rgb565 [74, 173] 1 1 2 =
      some [UInt8.ofNat ((21 <<< 3) ||| (21 >>> 2)),
            UInt8.ofNat ((42 <<< 2) ||| (42 >>> 4)),
            UInt8.ofNat ((10 <<< 3) ||| (10 >>> 2)), 255] ∧
    ((21 : Nat) = 31 → UInt8.ofNat ((21 <<< 3) ||| ((21 : Nat) >>> 2)) = 255) ∧
    ((21 : Nat) = 0 → UInt8.ofNat ((21 <<< 3) ||| ((21 : Nat) >>> 2)) = 0) :=
  C6_rgb565_bit_replication 21 42 10 (by decide) (by decide) (by decide)
    74 173 (by decide)

theorem getD_congr_of_getElem? (l1 l2 : List UInt8) (i : Nat)
    (h : l1[i]? = l2[i]?) : l1.getD i 0 = l2.getD i 0 := by
  have e1 : l1.getD i 0 = (l1[i]?).getD 0 := by simp [List.getD]
  have e2 : l2.getD i 0 = (l2[i]?).getD 0 := by simp [List.getD]
  rw [e1, e2, h]

/-- Claim C7 (amended): for every supported encoding,
pitch ≥ width × bytes-per-pixel with height × pitch < 2^32 (beyond which
the 32-bit row offset wraps and rows are read from wrapped positions — see
the counterexample), and two source buffers of length ≥ height × pitch
agreeing on the first width × bytes-per-pixel bytes of each scanline, the
decoder produces identical output — the per-row alignment padding is never
read. -/
theorem C7_padding_never_read (format : DrmFourcc) (bpp : Nat)
    (hf : fourccBytesPerPixel format = some bpp)
    (src1 src2 : List UInt8) (w h p : Nat) (hp : bpp * w ≤ p)
    (h1 : h * p ≤ src1.length) (h2 : h * p ≤ src2.length)
    (hw : h * p < 4294967296)
    (hagree : ∀ y j, y < h → j < bpp * w → src1[y * p + j]? = src2[y * p + j]?) :
    convert_to_rgba src1 w h p format = convert_to_rgba src2 w h p format := by
  cases format with
  | Xrgb8888 =>
    have hbpp : bpp = 4 := by simpa [fourccBytesPerPixel] using hf.symm
    subst hbpp
    have hpx : flatTo (fun y => flatTo (fun x => xrgbPixelD src1 (y * p) x) w) h
        = flatTo (fun y => flatTo (fun x => xrgbPixelD src2 (y * p) x) w) h := by
      apply flatTo_congr
      intro y hy
      apply flatTo_congr
      intro x hx
      unfold xrgbPixelD
      rw [getD_congr_of_getElem? src1 src2 _ (hagree y _ hy (by omega)),
        getD_congr_of_getElem? src1 src2 _ (hagree y _ hy (by omega)),
        getD_congr_of_getElem? src1 src2 _ (hagree y _ hy (by omega))]
    show liftConv (convert_xrgb8888 src1 w h p)
      = liftConv (convert_xrgb8888 src2 w h p)
    rw [convert_xrgb8888_eq src1 w h p hp h1 hw,
      convert_xrgb8888_eq src2 w h p hp h2 hw, hpx]
  | Argb8888 =>
    have hbpp : bpp = 4 := by simpa [fourccBytesPerPixel] using hf.symm
    subst hbpp
    have hpx : flatTo (fun y => flatTo (fun x => argbPixelD src1 (y * p) x) w) h
        = flatTo (fun y => flatTo (fun x => argbPixelD src2 (y * p) x) w) h := by
      apply flatTo_congr
      intro y hy
      apply flatTo_congr
      intro x hx
      unfold argbPixelD
      rw [getD_congr_of_getElem? src1 src2 _ (hagree y _ hy (by omega)),
        getD_congr_of_getElem? src1 src2 _ (hagree y _ hy (by omega)),
        getD_congr_of_getElem? src1 src2 _ (hagree y _ hy (by omega)),
        getD_congr_of_getElem? src1 src2 _ (hagree y _ hy (by omega))]
    show liftConv (convert_argb8888 src1 w h p)
      = liftConv (convert_argb8888 src2 w h p)
    rw [convert_argb8888_eq src1 w h p hp h1 hw,
      convert_argb8888_eq src2 w h p hp h2 hw, hpx]
  | Xbgr8888 =>
    have hbpp : bpp = 4 := by simpa [fourccBytesPerPixel] using hf.symm
    subst hbpp
    have hpx : flatTo (fun y => flatTo (fun x => xbgrPixelD src1 (y * p) x) w) h
        = flatTo (fun y => flatTo (fun x => xbgrPixelD src2 (y * p) x) w) h := by
      apply flatTo_congr
      intro y hy
      apply flatTo_congr
      intro x hx
      unfold xbgrPixelD
      rw [getD_congr_of_getElem? src1 src2 _ (hagree y _ hy (by omega)),
        getD_congr_of_getElem? src1 src2 _ (hagree y _ hy (by omega)),
        getD_congr_of_getElem? src1 src2 _ (hagree y _ hy (by omega))]
    show liftConv (convert_xbgr8888 src1 w h p)
      = liftConv (convert_xbgr8888 src2 w h p)
    rw [convert_xbgr8888_eq src1 w h p hp h1 hw,
      convert_xbgr8888_eq src2 w h p hp h2 hw, hpx]
  | Abgr8888 =>
    have hbpp : bpp = 4 := by simpa [fourccBytesPerPixel] using hf.symm
    subst hbpp
    have hpx : flatTo (fun y => flatTo (fun x => abgrPixelD src1 (y * p) x) w) h
        = flatTo (fun y => flatTo (fun x => abgrPixelD src2 (y * p) x) w) h := by
      apply flatTo_congr
      intro y hy
      apply flatTo_congr
      intro x hx
      unfold abgrPixelD
      rw [getD_congr_of_getElem? src1 src2 _ (hagree y _ hy (by omega)),
        getD_congr_of_getElem? src1 src2 _ (hagree y _ hy (by omega)),
        getD_congr_of_getElem? src1 src2 _ (hagree y _ hy (by omega)),
        getD_congr_of_getElem? src1 src2 _ (hagree y _ hy (by omega))]
    show liftConv (convert_abgr8888 src1 w h p)
      = liftConv (convert_abgr8888 src2 w h p)
    rw [convert_abgr8888_eq src1 w h p hp h1 hw,
      convert_abgr8888_eq src2 w h p hp h2 hw, hpx]
  | Rgb565 =>
    have hbpp : bpp = 2 := by simpa [fourccBytesPerPixel] using hf.symm
    subst hbpp
    have hpx : flatTo (fun y => flatTo (fun x => rgb565PixelD src1 (y * p) x) w) h
        = flatTo (fun y => flatTo (fun x => rgb565PixelD src2 (y * p) x) w) h := by
      apply flatTo_congr
      intro y hy
      apply flatTo_congr
      intro x hx
      unfold rgb565PixelD rgb565Word
      rw [getD_congr_of_getElem? src1 src2 _ (hagree y _ hy (by omega)),
        getD_congr_of_getElem? src1 src2 _ (hagree y _ hy (by omega))]
    show liftConv (convert_rgb565 src1 w h p)
      = liftConv (convert_rgb565 src2 w h p)
    rw [convert_rgb565_eq src1 w h p hp h1 hw,
      convert_rgb565_eq src2 w h p hp h2 hw, hpx]
  | other tag => rfl

/-- Witness for C7: two 1×1 XRGB8888 buffers with pitch 5 differing only in
the padding byte decode identically. -/
theorem C7_padding_never_read_witness :
    convert_to_rgba [1, 2, 3, 4, 9] 1 1 5 DrmFourcc.Xrgb8888
      = convert_to_rgba [1, 2, 3, 4, 200] 1 1 5 DrmFourcc.Xrgb8888 :=
  C7_padding_never_read DrmFourcc.Xrgb8888 4 rfl [1, 2, 3, 4, 9]
    [1, 2, 3, 4, 200] 1 1 5 (by decide) (by decide) (by decide) (by decide)
    (by
      intro y j hy hj
      interval_cases y
      interval_cases j <;> rfl)

theorem getElem?_set_self_of_lt (l : List UInt8) (i : Nat) (a : UInt8)
    (h : i < l.length) : (l.set i a)[i]? = some a :=
  List.getElem?_set_self' .. |>.trans (by simp [List.getElem?_eq_getElem h])

theorem cexSrcZero_length : cexSrcZero.length = 3 * cexPitch := by
  simp [cexSrcZero]

theorem cexSrcMarked_length : cexSrcMarked.length = 3 * cexPitch := by
  simp [cexSrcMarked, cexSrcZero]

theorem cexSrcZero_getElem? (j : Nat) (hj : j < 3 * cexPitch) :
    cexSrcZero[j]? = some 0 := by
  rw [show cexSrcZero = List.replicate (3 * cexPitch) 0 from rfl]
  simp [List.getElem?_replicate, hj]

theorem cexSrcMarked_getElem?_eq (j : Nat) (hj : j < 3 * cexPitch) :
    cexSrcMarked[j]? = some (if j = 7 then 200 else 0) := by
  by_cases h7 : j = 7
  · subst h7
    rw [if_pos rfl]
    exact getElem?_set_self_of_lt cexSrcZero 7 200
      (by rw [cexSrcZero_length]; norm_num [cexPitch])
  · rw [if_neg h7, show cexSrcMarked = cexSrcZero.set 7 200 from rfl,
      List.getElem?_set_ne (fun hh => h7 hh.symm)]
    exact cexSrcZero_getElem? j hj

theorem cexSrcZero_getD (j : Nat) (hj : j < 3 * cexPitch) :
    cexSrcZero.getD j 0 = 0 := by
  have e : cexSrcZero.getD j 0 = (cexSrcZero[j]?).getD 0 := by simp [List.getD]
  rw [e, cexSrcZero_getElem? j hj]
  rfl

theorem cexSrcMarked_getD (j : Nat) (hj : j < 3 * cexPitch) :
    cexSrcMarked.getD j 0 = if j = 7 then 200 else 0 := by
  have e : cexSrcMarked.getD j 0 = (cexSrcMarked[j]?).getD 0 := by
    simp [List.getD]
  rw [e, cexSrcMarked_getElem?_eq j hj]
  rfl

/-- Counterexample to C5 as stated: with pitch 2^31 + 2 and height 3 the
claim's hypotheses hold, but the u32 row offset of row 2 wraps to 4, so the
decoder reads row 2's alpha byte from buffer position 7 instead of
2 × pitch + 3, and the ARGB8888 alpha-preservation part of the claim fails:
the decoded alpha byte is 200 while the true source alpha byte is 0. -/
theorem C5_counterexample_u32_row_offset_wrap :
    4 * 1 ≤ cexPitch ∧ 3 * cexPitch ≤ cexSrcMarked.length ∧
    ¬ (∃ L, convert_to_rgba cexSrcMarked 1 3 cexPitch DrmFourcc.Argb8888 =
          .ok L ∧
        L.length = 1 * 3 * 4 ∧
        (fourccOpaque DrmFourcc.Argb8888 = true →
          ∀ i, i < 1 * 3 → L[4 * i + 3]? = some 255) ∧
        (fourccOpaque DrmFourcc.Argb8888 = false →
          ∀ y x, y < 3 → x < 1 →
            L[4 * (y * 1 + x) + 3]? =
              cexSrcMarked[y * cexPitch + (x * 4 + 3)]?)) := by
  refine ⟨by norm_num [cexPitch], by rw [cexSrcMarked_length], ?_⟩
  rintro ⟨L, hconv, -, -, halpha⟩
  have hrows : ∀ y, y < 3 →
      y * cexPitch % 4294967296 + 4 * 1 ≤ cexSrcMarked.length := by
    intro y hy
    rw [cexSrcMarked_length]
    interval_cases y <;> norm_num [cexPitch]
  have hchar := convert_argb8888_eq_offsets cexSrcMarked 1 3 cexPitch hrows
  have hok : convert_to_rgba cexSrcMarked 1 3 cexPitch DrmFourcc.Argb8888 =
      .ok (flatTo (fun y =>
        flatTo (fun x => argbPixelD cexSrcMarked (y * cexPitch % 4294967296) x)
          1) 3) := by
    show liftConv (convert_argb8888 cexSrcMarked 1 3 cexPitch) = _
    rw [hchar]
    rfl
  rw [hok] at hconv
  injection hconv with hL
  have ha := halpha rfl 2 0 (by norm_num) (by norm_num)
  rw [← hL] at ha
  rw [flatflat_getElem?
      (fun y x => argbPixelD cexSrcMarked (y * cexPitch % 4294967296) x)
      1 3 (fun _ _ _ _ => rfl) 2 0 3 (by norm_num) (by norm_num)
      (by norm_num)] at ha
  have hoff : 2 * cexPitch % 4294967296 = 4 := by norm_num [cexPitch]
  rw [hoff] at ha
  have hlhs : (argbPixelD cexSrcMarked 4 0)[3]? = some 200 := by
    show some (cexSrcMarked.getD (4 + (0 * 4 + 3)) 0) = some 200
    rw [show 4 + (0 * 4 + 3) = 7 by norm_num,
      cexSrcMarked_getD 7 (by norm_num [cexPitch]), if_pos rfl]
  have hrhs : cexSrcMarked[2 * cexPitch + (0 * 4 + 3)]? = some 0 := by
    rw [cexSrcMarked_getElem?_eq _ (by norm_num [cexPitch]),
      if_neg (by norm_num [cexPitch])]
  rw [hlhs, hrhs] at ha
  exact absurd ha (by decide)

/-- Counterexample to C7 as stated: the two buffers agree on the first
4 bytes of each of the three true scanlines and differ only in a padding
byte of row 0 (position 7), yet with pitch 2^31 + 2 the u32 row offset of
row 2 wraps to 4 and the decoder reads that padding byte as row 2's alpha,
so the two decodes differ. -/
theorem C7_counterexample_u32_row_offset_wrap :
    4 * 1 ≤ cexPitch ∧ 3 * cexPitch ≤ cexSrcZero.length ∧
    3 * cexPitch ≤ cexSrcMarked.length ∧
    (∀ y j, y < 3 → j < 4 * 1 →
      cexSrcZero[y * cexPitch + j]? = cexSrcMarked[y * cexPitch + j]?) ∧
    convert_to_rgba cexSrcZero 1 3 cexPitch DrmFourcc.Argb8888 ≠
      convert_to_rgba cexSrcMarked 1 3 cexPitch DrmFourcc.Argb8888 := by
  have hcp : (2147483650 : Nat) = cexPitch := rfl
  refine ⟨by norm_num [cexPitch], by rw [cexSrcZero_length],
    by rw [cexSrcMarked_length], ?_, ?_⟩
  · intro y j hy hj
    have hne7 : y * cexPitch + j ≠ 7 := by
      rcases Nat.eq_zero_or_pos y with rfl | hy0
      · omega
      · have hge : cexPitch ≤ y * cexPitch :=
          Nat.le_mul_of_pos_left cexPitch hy0
        omega
    have hlt : y * cexPitch + j < 3 * cexPitch := by
      have hle : y * cexPitch ≤ 2 * cexPitch :=
        Nat.mul_le_mul_right cexPitch (by omega)
      omega
    rw [cexSrcZero_getElem? _ hlt, cexSrcMarked_getElem?_eq _ hlt,
      if_neg hne7]
  · intro heq
    have hrowsZ : ∀ y, y < 3 →
        y * cexPitch % 4294967296 + 4 * 1 ≤ cexSrcZero.length := by
      intro y hy
      rw [cexSrcZero_length]
      interval_cases y <;> norm_num [cexPitch]
    have hrowsM : ∀ y, y < 3 →
        y * cexPitch % 4294967296 + 4 * 1 ≤ cexSrcMarked.length := by
      intro y hy
      rw [cexSrcMarked_length]
      interval_cases y <;> norm_num [cexPitch]
    have hz := convert_argb8888_eq_offsets cexSrcZero 1 3 cexPitch hrowsZ
    have hm := convert_argb8888_eq_offsets cexSrcMarked 1 3 cexPitch hrowsM
    have e1 : convert_to_rgba cexSrcZero 1 3 cexPitch DrmFourcc.Argb8888 =
        .ok (flatTo (fun y =>
          flatTo (fun x => argbPixelD cexSrcZero (y * cexPitch % 4294967296) x)
            1) 3) := by
      show liftConv (convert_argb8888 cexSrcZero 1 3 cexPitch) = _
      rw [hz]
      rfl
    have e2 : convert_to_rgba cexSrcMarked 1 3 cexPitch DrmFourcc.Argb8888 =
        .ok (flatTo (fun y =>
          flatTo (fun x => argbPixelD cexSrcMarked (y * cexPitch % 4294967296) x)
            1) 3) := by
      show liftConv (convert_argb8888 cexSrcMarked 1 3 cexPitch) = _
      rw [hm]
      rfl
    rw [e1, e2] at heq
    injection heq with hL
    have h11 : (flatTo (fun y =>
        flatTo (fun x => argbPixelD cexSrcZero (y * cexPitch % 4294967296) x)
          1) 3)[4 * (2 * 1 + 0) + 3]? =
        (flatTo (fun y =>
          flatTo (fun x => argbPixelD cexSrcMarked (y * cexPitch % 4294967296) x)
            1) 3)[4 * (2 * 1 + 0) + 3]? := by
      rw [hL]
    rw [flatflat_getElem?
        (fun y x => argbPixelD cexSrcZero (y * cexPitch % 4294967296) x)
        1 3 (fun _ _ _ _ => rfl) 2 0 3 (by norm_num) (by norm_num)
        (by norm_num),
      flatflat_getElem?
        (fun y x => argbPixelD cexSrcMarked (y * cexPitch % 4294967296) x)
        1 3 (fun _ _ _ _ => rfl) 2 0 3 (by norm_num) (by norm_num)
        (by norm_num)] at h11
    have hoff : 2 * cexPitch % 4294967296 = 4 := by norm_num [cexPitch]
    rw [hoff] at h11
    have e3 : (argbPixelD cexSrcZero 4 0)[3]? = some 0 := by
      show some (cexSrcZero.getD (4 + (0 * 4 + 3)) 0) = some 0
      rw [show 4 + (0 * 4 + 3) = 7 by norm_num,
        cexSrcZero_getD 7 (by norm_num [cexPitch])]
    have e4 : (argbPixelD cexSrcMarked 4 0)[3]? = some 200 := by
      show some (cexSrcMarked.getD (4 + (0 * 4 + 3)) 0) = some 200
      rw [show 4 + (0 * 4 + 3) = 7 by norm_num,
        cexSrcMarked_getD 7 (by norm_num [cexPitch]), if_pos rfl]
    rw [e3, e4] at h11
    exact absurd h11 (by decide)

-- ## Trace hygiene of the capture pipeline

theorem mmap_no_query (card : Card) (g h p : Nat) :
    ∀ e ∈ (mmap_gem_buffer card g h p).2, e.isQueryCall = false := by
  unfold mmap_gem_buffer
  split
  · simp [Event.isQueryCall]
  · dsimp only
    split
    · simp [Event.isQueryCall]
    · simp [Event.isQueryCall]

theorem capture_fb2_body_no_query (card : Card) (info : Fb2Info) (w h : Nat) :
    ∀ e ∈ (capture_fb2_body card info w h).2, e.isQueryCall = false := by
  unfold capture_fb2_body
  split
  · simp
  · rename_i gem heq0
    have hm := mmap_no_query card gem h info.pitch0
    split
    · rename_i e tr heq
      rw [heq] at hm
      exact hm
    · rename_i raw tr heq
      rw [heq] at hm
      split
      · exact hm
      · exact hm
      · dsimp only
        split
        all_goals {
          intro e he
          rcases List.mem_append.1 he with h1 | h1
          · exact hm e h1
          · simp at h1
            subst h1
            rfl }


theorem capture_fb2_trace_shape (card : Card) (fb w h : Nat) :
    ∃ tr, (capture_fb2 card fb w h).2 = Event.getFb2Call :: tr ∧
      ∀ e ∈ tr, e.isQueryCall = false := by
  unfold capture_fb2
  refine ⟨_, rfl, ?_⟩
  split
  · simp
  · split
    · split
      · simp
      · exact capture_fb2_body_no_query card _ w h
    · exact capture_fb2_body_no_query card _ w h

theorem capture_fb1_trace_shape (card : Card) (fb w h : Nat) :
    ∃ tr, (capture_fb1 card fb w h).2 = Event.getFb1Call :: tr ∧
      ∀ e ∈ tr, e.isQueryCall = false := by
  unfold capture_fb1
  refine ⟨_, rfl, ?_⟩
  split
  · simp
  · rename_i info heqi
    split
    · simp
    · rename_i gem hgem
      split
      · simp [Event.isQueryCall]
      · rename_i format hfmt
        have hm := mmap_no_query card gem h info.pitch
        split
        · rename_i e tr heq
          rw [heq] at hm
          exact hm
        · rename_i raw tr heq
          rw [heq] at hm
          split
          · intro e he
            rcases List.mem_append.1 he with h1 | h1
            · exact hm e h1
            · simp at h1
              subst h1
              rfl
          · exact hm
          · dsimp only
            split
            all_goals {
              intro e he
              rcases List.mem_append.1 he with h1 | h1
              · exact hm e h1
              · simp at h1
                subst h1
                rfl }

theorem count_eq_zero_of_no_query (tr : List Event) (q : Event)
    (hq : q.isQueryCall = true) (h : ∀ e ∈ tr, e.isQueryCall = false) :
    tr.count q = 0 := by
  rw [List.count_eq_zero]
  intro hmem
  have hf := h q hmem
  rw [hq] at hf
  exact Bool.noConfusion hf

theorem capture_fb2_trace_counts (card : Card) (fb w h : Nat) :
    (capture_fb2 card fb w h).2.count Event.getFb1Call = 0 ∧
    (capture_fb2 card fb w h).2.count Event.getFb2Call = 1 := by
  obtain ⟨tr, htr, hno⟩ := capture_fb2_trace_shape card fb w h
  rw [htr]
  constructor
  · rw [List.count_cons_of_ne (by decide)]
    exact count_eq_zero_of_no_query tr Event.getFb1Call rfl hno
  · rw [List.count_cons_self]
    rw [count_eq_zero_of_no_query tr Event.getFb2Call rfl hno]

theorem capture_fb1_trace_counts (card : Card) (fb w h : Nat) :
    (capture_fb1 card fb w h).2.count Event.getFb1Call = 1 ∧
    (capture_fb1 card fb w h).2.count Event.getFb2Call = 0 := by
  obtain ⟨tr, htr, hno⟩ := capture_fb1_trace_shape card fb w h
  rw [htr]
  constructor
  · rw [List.count_cons_self]
    rw [count_eq_zero_of_no_query tr Event.getFb1Call rfl hno]
  · rw [List.count_cons_of_ne (by decide)]
    exact count_eq_zero_of_no_query tr Event.getFb2Call rfl hno

/-- Claim C4: the framebuffer-query fallback is first-success-wins and
never retried — if GET_FB2 produces an image, GET_FB is never attempted and
GET_FB2 ran exactly once; if GET_FB2 fails, GET_FB is attempted exactly once
and its outcome is the final result of the capture attempt. -/
theorem C4_fallback_first_success_wins (card : Card) (output : ActiveOutput) (crtc_info : CrtcInfo)
    (hc : card.get_crtc output.crtc_handle = .ok crtc_info) :
    (∀ img tr,
      capture_fb2 card (crtc_info.framebuffer.getD output.fb_handle)
          output.width output.height = (.ok img, tr) →
      capture_fb card output = (.ok img, tr) ∧
      tr.count Event.getFb1Call = 0 ∧
      tr.count Event.getFb2Call = 1) ∧
    (∀ e tr,
      capture_fb2 card (crtc_info.framebuffer.getD output.fb_handle)
          output.width output.height = (.err e, tr) →
      (capture_fb card output).1 =
        (capture_fb1 card (crtc_info.framebuffer.getD output.fb_handle)
          output.width output.height).1 ∧
      (capture_fb card output).2.count Event.getFb1Call = 1 ∧
      (capture_fb card output).2.count Event.getFb2Call = 1) := by
  have hfb : capture_fb card output =
      match capture_fb2 card (crtc_info.framebuffer.getD output.fb_handle)
          output.width output.height with
      | (.ok img, tr) => (.ok img, tr)
      | (.panicked, tr) => (.panicked, tr)
      | (.err _, tr) =>
        let r1 := capture_fb1 card (crtc_info.framebuffer.getD output.fb_handle)
          output.width output.height
        (r1.1, tr ++ r1.2) := by
    unfold capture_fb
    rw [hc]
  constructor
  · intro img tr h2
    rw [hfb, h2]
    refine ⟨rfl, ?_, ?_⟩
    · have := (capture_fb2_trace_counts card
        (crtc_info.framebuffer.getD output.fb_handle) output.width output.height).1
      rw [h2] at this
      exact this
    · have := (capture_fb2_trace_counts card
        (crtc_info.framebuffer.getD output.fb_handle) output.width output.height).2
      rw [h2] at this
      exact this
  · intro e tr h2
    have hfb2 : capture_fb card output =
        ((capture_fb1 card (crtc_info.framebuffer.getD output.fb_handle)
            output.width output.height).1,
         tr ++ (capture_fb1 card (crtc_info.framebuffer.getD output.fb_handle)
            output.width output.height).2) := by
      rw [hfb, h2]
    rw [hfb2]
    refine ⟨rfl, ?_, ?_⟩
    · show (tr ++ _).count Event.getFb1Call = 1
      rw [List.count_append]
      have hA := (capture_fb2_trace_counts card
        (crtc_info.framebuffer.getD output.fb_handle) output.width output.height).1
      rw [h2] at hA
      have hA2 : tr.count Event.getFb1Call = 0 := hA
      have hB := (capture_fb1_trace_counts card
        (crtc_info.framebuffer.getD output.fb_handle) output.width output.height).1
      omega
    · show (tr ++ _).count Event.getFb2Call = 1
      rw [List.count_append]
      have hA := (capture_fb2_trace_counts card
        (crtc_info.framebuffer.getD output.fb_handle) output.width output.height).2
      rw [h2] at hA
      have hA2 : tr.count Event.getFb2Call = 1 := hA
      have hB := (capture_fb1_trace_counts card
        (crtc_info.framebuffer.getD output.fb_handle) output.width output.height).2
      omega


/-- Claim C2 (amended): when GET_FB2 reports a non-linear layout modifier,
the GET_FB2 capture path itself fails with the descriptive tiled-buffer
error and never hands the buffer to the Buffer Mapper (no PRIME export, no
mmap); the capture as a whole, however, then falls back to the legacy
GET_FB path (see the counterexample), which may map the buffer. -/
theorem C2_fb2_rejects_nonlinear_modifier (card : Card) (fb_handle width height : Nat) (info : Fb2Info)
    (m : DrmModifier)
    (hq : card.get_planar_framebuffer fb_handle = .ok info)
    (hm : info.modifier = some m) (hlin : m ≠ DrmModifier.Linear) :
    (capture_fb2 card fb_handle width height).1 =
      .err (.internalError ("Framebuffer has non-linear modifier (" ++
        modifierDebug m ++ "); tiled buffers cannot be read via mmap")) ∧
    ∀ e ∈ (capture_fb2 card fb_handle width height).2, e.isMapperStep = false := by
  have hcap : capture_fb2 card fb_handle width height =
      (.err (.internalError ("Framebuffer has non-linear modifier (" ++
        modifierDebug m ++ "); tiled buffers cannot be read via mmap")),
       [Event.getFb2Call]) := by
    unfold capture_fb2
    simp only [hq, hm]
    rw [if_pos hlin]
  rw [hcap]
  exact ⟨rfl, by simp [Event.isMapperStep]⟩

/-- Claim C8: the legacy framebuffer path maps (32,24)→XRGB8888,
(32,32)→ARGB8888, (16,16)→RGB565; every other (bpp, depth) pair yields an
unsupported-format error naming the pair, and the GEM handle obtained from
the legacy query is closed exactly once before that error is returned. -/
theorem C8_legacy_bpp_depth_mapping (card : Card) (fb_handle width height : Nat) (info : Fb1Info)
    (gem : Nat) (hq : card.get_framebuffer fb_handle = .ok info)
    (hb : info.buffer = some gem) :
    fb1_format 32 24 = some DrmFourcc.Xrgb8888 ∧
    fb1_format 32 32 = some DrmFourcc.Argb8888 ∧
    fb1_format 16 16 = some DrmFourcc.Rgb565 ∧
    (¬ ((info.bpp = 32 ∧ info.depth = 24) ∨ (info.bpp = 32 ∧ info.depth = 32) ∨
        (info.bpp = 16 ∧ info.depth = 16)) →
      capture_fb1 card fb_handle width height =
        (.err (.internalError ("Unsupported framebuffer format: " ++
           toString info.bpp ++ "bpp depth=" ++ toString info.depth)),
         [Event.getFb1Call, Event.closeBuffer gem])) := by
  refine ⟨rfl, rfl, rfl, ?_⟩
  intro hn
  have hfmt : fb1_format info.bpp info.depth = none := by
    unfold fb1_format
    split_ifs with h1 h2 h3
    · exact absurd (Or.inl h1) hn
    · exact absurd (Or.inr (Or.inl h2)) hn
    · exact absurd (Or.inr (Or.inr h3)) hn
    · rfl
  unfold capture_fb1
  simp only [hq, hb, hfmt]

/-- Claim C9: an explicitly supplied output index ≥ the output count
(including equality) yields an invalid-params error naming the index, never
an internal error; an omitted index selects output index 0. -/
theorem C9_capture_monitor_index_contract (b : KmsBackend) (id : Nat) (hid : b.outputs.length ≤ id) :
    (capture_monitor b (some id)).1 =
      .err (.invalidParams ("Monitor index " ++ toString id ++ " out of range")) ∧
    ∀ output, b.outputs[0]? = some output →
      capture_monitor b none = capture_fb b.card output := by
  constructor
  · have hnone : b.outputs[id]? = none := List.getElem?_eq_none hid
    unfold capture_monitor
    simp only [hnone]
  · intro output hout
    have hh : b.outputs.head? = some output := by
      rw [List.head?_eq_getElem?]
      exact hout
    unfold capture_monitor
    simp only [hh]

/-- Claim C10: every successfully constructed KMS backend has a non-empty
output list, so a capture with the index omitted selects output 0 and never
hits the "No active outputs" internal-error branch. -/
theorem C10_open_backend_has_outputs (env : List (Option Card)) (b : KmsBackend)
    (hopen : open_go env = .ok b) :
    b.outputs ≠ [] ∧
    ∃ output, b.outputs[0]? = some output ∧
      capture_monitor b none = capture_fb b.card output := by
  induction env with
  | nil => exact absurd hopen (by simp [open_go])
  | cons entry rest ih =>
    cases entry with
    | none => exact ih (by simpa [open_go] using hopen)
    | some card =>
      rw [open_go] at hopen
      cases hpo : probe_outputs card with
      | error e =>
        simp only [hpo] at hopen
        exact ih hopen
      | ok outs =>
        simp only [hpo] at hopen
        by_cases hemp : outs.isEmpty
        · rw [if_pos hemp] at hopen
          exact ih hopen
        · rw [if_neg hemp] at hopen
          cases hopen
          have hne : outs ≠ [] := by
            intro hnil
            subst hnil
            simp at hemp
          constructor
          · exact hne
          · cases outs with
            | nil => exact absurd rfl hne
            | cons o os =>
              refine ⟨o, ?_, ?_⟩
              · simp
              · simp [capture_monitor]

theorem probe_connector_ok_of_queries (card : Card) (c : Nat)
    (h : connQueriesOk card c) : ∃ r, probe_connector card c = .ok r := by
  obtain ⟨conn, hconn, hrest⟩ := h
  unfold probe_connector
  simp only [hconn]
  by_cases hs : conn.state = ConnState.Connected
  · rw [if_neg (fun hne => hne hs)]
    cases hce : conn.current_encoder with
    | none => exact ⟨none, rfl⟩
    | some enc_h =>
      obtain ⟨enc, henc, h2⟩ := hrest enc_h hs hce
      simp only [henc]
      cases hcr : enc.crtc with
      | none => exact ⟨none, rfl⟩
      | some crtc_h =>
        obtain ⟨ci, hci⟩ := h2 crtc_h hcr
        simp only [hci]
        cases ci.mode with
        | none => exact ⟨none, rfl⟩
        | some mode =>
          cases ci.framebuffer with
          | none => exact ⟨none, rfl⟩
          | some fb_h => exact ⟨some ⟨conn.name, crtc_h, mode.w, mode.h, fb_h⟩, rfl⟩
  · refine ⟨none, ?_⟩
    rw [if_pos hs]

theorem probe_connector_error_of_fails (card : Card) (c : Nat) (e : String)
    (h : connQueryFails card c e) : probe_connector card c = .error e := by
  unfold probe_connector
  rcases h with hc | ⟨conn, enc_h, hc, hs, hce, henc⟩ |
    ⟨conn, enc_h, enc, crtc_h, hc, hs, hce, henc, hcr, hci⟩
  · simp only [hc]
  · simp [hc, hs, hce, henc]
  · simp [hc, hs, hce, henc, hcr, hci]

theorem probe_go_error_of_fails (card : Card) (e : String) :
    ∀ pre conn_h post, (∀ c ∈ pre, connQueriesOk card c) →
      connQueryFails card conn_h e →
      probe_go card (pre ++ conn_h :: post) = .error e := by
  intro pre
  induction pre with
  | nil =>
    intro c post _ hf
    have hpc := probe_connector_error_of_fails card c e hf
    rw [List.nil_append]
    conv_lhs => rw [probe_go]
    simp only [hpc]
  | cons p pre ih =>
    intro c post hok hf
    obtain ⟨r, hr⟩ := probe_connector_ok_of_queries card p
      (hok p (List.mem_cons_self p pre))
    have ih2 := ih c post (fun x hx => hok x (List.mem_cons_of_mem p hx)) hf
    rw [List.cons_append]
    conv_lhs => rw [probe_go]
    cases r with
    | none => simp only [hr, ih2]
    | some out => simp only [hr, ih2]

/-- Claim C3 (amended): if every per-connector query step succeeds, the
probe returns the surviving (possibly empty) set of active outputs,
skipping a connector only when it is disconnected or lacks an
encoder/CRTC/mode/framebuffer; but if any per-connector query step —
get_connector, get_encoder, or get_crtc — fails for a connector anywhere in
the list (the earlier connectors' queries succeeding), the whole probe
aborts with that error instead of skipping just that connector. -/
theorem C3_probe_surviving_set (card : Card) (conns : List Nat)
    (hok : ∀ c ∈ conns, connQueriesOk card c) :
    probe_go card conns = .ok (probe_outputs_specSkip card conns) ∧
    ∀ pre conn_h post e, (∀ c ∈ pre, connQueriesOk card c) →
      connQueryFails card conn_h e →
      probe_go card (pre ++ conn_h :: post) = .error e := by
  constructor
  · induction conns with
    | nil => rfl
    | cons c rest ih =>
      obtain ⟨r, hr⟩ := probe_connector_ok_of_queries card c
        (hok c (List.mem_cons_self c rest))
      have ih2 := ih (fun x hx => hok x (List.mem_cons_of_mem c hx))
      cases r with
      | none =>
        have hgo : probe_go card (c :: rest) = probe_go card rest := by
          conv_lhs => rw [probe_go]
          simp only [hr]
        have hfm : probe_outputs_specSkip card (c :: rest)
            = probe_outputs_specSkip card rest := by
          unfold probe_outputs_specSkip
          simp only [List.filterMap_cons, hr, Except.toOption, Option.join]
          simp
        rw [hgo, hfm]
        exact ih2
      | some out =>
        have hgo : probe_go card (c :: rest) =
            match probe_go card rest with
            | .error e => .error e
            | .ok outs => .ok (out :: outs) := by
          conv_lhs => rw [probe_go]
          simp only [hr]
        have hfm : probe_outputs_specSkip card (c :: rest)
            = out :: probe_outputs_specSkip card rest := by
          unfold probe_outputs_specSkip
          simp only [List.filterMap_cons, hr, Except.toOption, Option.join]
          simp
        rw [hgo, hfm, ih2]
  · intro pre conn_h post e hpre hf
    exact probe_go_error_of_fails card e pre conn_h post hpre hf



/-- Claim C1 (code-bug evidence): on `cardDecodeFail`, `capture_fb2` obtains
GEM handle 7 from GET_FB2 and PRIME-exports it, the pixel decode then fails,
and the error path returns without a single `close_buffer` call — the
backing-buffer handle is closed zero times, not exactly once. -/
theorem C1_fb2_decode_failure_leaks_gem_handle :
    (capture_fb2 cardDecodeFail 77 2 1).1 =
      .err (.internalError "Unsupported pixel format: Yuyv") ∧
    Event.primeExport 7 ∈ (capture_fb2 cardDecodeFail 77 2 1).2 ∧
    (capture_fb2 cardDecodeFail 77 2 1).2.count (Event.closeBuffer 7) = 0 := by
  refine ⟨rfl, ?_, rfl⟩
  decide

/-- Counterexample to C2 as stated: on `cardTiled`, GET_FB2 reports a
non-linear modifier, yet the capture does not fail — it succeeds through the
legacy GET_FB fallback — and the framebuffer's backing buffer is handed to
the Buffer Mapper (PRIME-exported) during that capture. -/
theorem C2_counterexample_fallback_maps_tiled_buffer :
    (capture_fb cardTiled outTiled).1 = .ok ⟨1, 1, [0, 0, 0, 255]⟩ ∧
    Event.primeExport 7 ∈ (capture_fb cardTiled outTiled).2 := by
  refine ⟨rfl, ?_⟩
  decide

/-- Witness for the amended C2 on `cardTiled`. -/
theorem C2_fb2_rejects_nonlinear_modifier_witness :
    (capture_fb2 cardTiled 77 1 1).1 =
      .err (.internalError ("Framebuffer has non-linear modifier (" ++
        modifierDebug (DrmModifier.vendor "I915FormatModXTiled") ++
        "); tiled buffers cannot be read via mmap")) ∧
    ∀ e ∈ (capture_fb2 cardTiled 77 1 1).2, e.isMapperStep = false :=
  C2_fb2_rejects_nonlinear_modifier cardTiled 77 1 1
    ⟨some (DrmModifier.vendor "I915FormatModXTiled"), some 7, 4,
     DrmFourcc.Xrgb8888⟩
    (DrmModifier.vendor "I915FormatModXTiled") rfl rfl (by decide)

/-- Counterexample to C3 as stated: on `cardConnFail` the first connector's
GET_CONNECTOR query fails and the whole probe aborts with that error, even
though the second connector has a surviving active output (as the
spec-modelled skip semantics shows). -/
theorem C3_counterexample_probe_aborts_on_query_failure :
    probe_outputs cardConnFail = .error "GET_CONNECTOR ioctl failed" ∧
    probe_outputs_specSkip cardConnFail [1, 2] =
      [⟨"HDMI-A-2", 6, 1920, 1080, 42⟩] := ⟨rfl, rfl⟩

/-- Witness for the amended C3 on the healthy single-connector device. -/
theorem C3_probe_surviving_set_witness :
    probe_go cardHealthy [1] = .ok (probe_outputs_specSkip cardHealthy [1]) ∧
    ∀ pre conn_h post e, (∀ c ∈ pre, connQueriesOk cardHealthy c) →
      connQueryFails cardHealthy conn_h e →
      probe_go cardHealthy (pre ++ conn_h :: post) = .error e :=
  C3_probe_surviving_set cardHealthy [1]
    (by
      intro c hc
      refine ⟨⟨ConnState.Connected, some 5, "HDMI-A-1"⟩, rfl, ?_⟩
      intro enc_h _ he
      refine ⟨⟨some 6⟩, rfl, ?_⟩
      intro crtc_h hch
      exact ⟨⟨some ⟨1, 1⟩, some 42⟩, rfl⟩)

/-- Witness for C4 on `cardTiled` (whose GET_FB2 attempt fails). -/
theorem C4_fallback_first_success_wins_witness :
    (∀ img tr, capture_fb2 cardTiled 77 1 1 = (.ok img, tr) →
      capture_fb cardTiled outTiled = (.ok img, tr) ∧
      tr.count Event.getFb1Call = 0 ∧
      tr.count Event.getFb2Call = 1) ∧
    (∀ e tr, capture_fb2 cardTiled 77 1 1 = (.err e, tr) →
      (capture_fb cardTiled outTiled).1 = (capture_fb1 cardTiled 77 1 1).1 ∧
      (capture_fb cardTiled outTiled).2.count Event.getFb1Call = 1 ∧
      (capture_fb cardTiled outTiled).2.count Event.getFb2Call = 1) :=
  C4_fallback_first_success_wins cardTiled outTiled ⟨some ⟨1, 1⟩, some 77⟩ rfl

/-- Witness for C8 on `cardOddFormat`, whose legacy query reports the
unmapped pair (24 bpp, depth 24). -/
theorem C8_legacy_bpp_depth_mapping_witness :
    fb1_format 32 24 = some DrmFourcc.Xrgb8888 ∧
    fb1_format 32 32 = some DrmFourcc.Argb8888 ∧
    fb1_format 16 16 = some DrmFourcc.Rgb565 ∧
    (¬ (((24 : Nat) = 32 ∧ (24 : Nat) = 24) ∨
        ((24 : Nat) = 32 ∧ (24 : Nat) = 32) ∨
        ((24 : Nat) = 16 ∧ (24 : Nat) = 16)) →
      capture_fb1 cardOddFormat 77 1 1 =
        (.err (.internalError ("Unsupported framebuffer format: " ++
           toString (24 : Nat) ++ "bpp depth=" ++ toString (24 : Nat))),
         [Event.getFb1Call, Event.closeBuffer 7])) :=
  C8_legacy_bpp_depth_mapping cardOddFormat 77 1 1 ⟨some 7, 3, 24, 24⟩ 7 rfl rfl

/-- Witness for C9 on a one-output backend, with the index equal to the
output count. -/
theorem C9_capture_monitor_index_contract_witness :
    (capture_monitor ⟨cardHealthy, [outHealthy]⟩ (some 1)).1 =
      .err (.invalidParams ("Monitor index " ++ toString (1 : Nat) ++
        " out of range")) ∧
    ∀ output, ([outHealthy] : List ActiveOutput)[0]? = some output →
      capture_monitor ⟨cardHealthy, [outHealthy]⟩ none =
        capture_fb cardHealthy output :=
  C9_capture_monitor_index_contract ⟨cardHealthy, [outHealthy]⟩ 1 (by decide)

/-- Witness for C10: opening a device listing with one healthy card. -/
theorem C10_open_backend_has_outputs_witness :
    ([outHealthy] : List ActiveOutput) ≠ [] ∧
    ∃ output, ([outHealthy] : List ActiveOutput)[0]? = some output ∧
      capture_monitor ⟨cardHealthy, [outHealthy]⟩ none =
        capture_fb cardHealthy output :=
  C10_open_backend_has_outputs [some cardHealthy] ⟨cardHealthy, [outHealthy]⟩ rfl

end Mcp
